import Mathlib

/-!
Shallow embedding of the brandi backend sources: the DAO methods of
create_product_dao.py and sender_dao.py, the service methods of
seller_shop_service.py, and the view handlers of destination_view.py and
store_order_view.py, together with proofs about their error handling and
control flow.
-/

/-- Python runtime values that flow between layers: None, ints, strings,
booleans, dicts, lists, and tuples. -/
inductive PyVal where
  | none : PyVal
  | int : Int → PyVal
  | str : String → PyVal
  | bool : Bool → PyVal
  | dict : List (String × PyVal) → PyVal
  | list : List PyVal → PyVal
  | tuple : List PyVal → PyVal

/-- Exceptions that can propagate in the embedded code. The first group are
the named custom exceptions of utils.custom_exceptions used by the sources;
nameError models the Python NameError and UnboundLocalError family raised on a
reference to an unbound local, indexError models IndexError, validationError
models the error raised by parameter validation, and other stands for any
further exception such as a database driver failure. All constructors model
subclasses of the Python Exception class. -/
inductive Exc where
  | productCreateDenied : String → Exc
  | productImageCreateDenied : String → Exc
  | stockCreateDenied : String → Exc
  | productHistoryCreateDenied : String → Exc
  | productCodeUpdatedDenied : String → Exc
  | accountNotExist : String → Exc
  | serverError : String → Exc
  | keyError : String → Exc
  | databaseCloseFail : String → Exc
  | nameError : String → Exc
  | indexError : String → Exc
  | validationError : String → Exc
  | other : String → Exc
deriving DecidableEq

/-- The observable state of a pymysql cursor after a successful execute call:
rowcount is the value returned by cursor.execute, lastrowid is the
auto-increment id of the last inserted row (0 when nothing was inserted). -/
structure CursorResult where
  rowcount : Nat
  lastrowid : Nat

/-- CreateProductDao.insert_product: runs the INSERT on products, reads
cursor.lastrowid into product_id, raises ProductCreateDenied with message
unable_to_create_product when `if not product_id` fires, otherwise returns
product_id. -/
def insert_product (cur : CursorResult) : Except Exc PyVal :=
  let product_id := cur.lastrowid
  if product_id = 0 then
    Except.error (Exc.productCreateDenied "unable_to_create_product")
  else
    Except.ok (PyVal.int product_id)

/-- CreateProductDao.insert_product_image: runs the INSERT on product_images,
reads cursor.lastrowid into result, raises ProductImageCreateDenied with
message unable_to_create_product_image when `if not result` fires; the Python
method body has no return statement, so on success it returns None. -/
def insert_product_image (cur : CursorResult) : Except Exc PyVal :=
  let result := cur.lastrowid
  if result = 0 then
    Except.error (Exc.productImageCreateDenied "unable_to_create_product_image")
  else
    Except.ok PyVal.none

/-- CreateProductDao.insert_stock: runs the INSERT on stocks, binds the value
returned by cursor.execute (the affected row count) to result, raises
StockCreateDenied with message unable_to_create_stocks when `if not result`
fires; no return statement, so on success it returns None. -/
def insert_stock (cur : CursorResult) : Except Exc PyVal :=
  let result := cur.rowcount
  if result = 0 then
    Except.error (Exc.stockCreateDenied "unable_to_create_stocks")
  else
    Except.ok PyVal.none

/-- CreateProductDao.insert_product_history: runs the INSERT on
product_histories, binds the value returned by cursor.execute to result,
raises ProductHistoryCreateDenied with message
unable_to_create_product_history when `if not result` fires; no return
statement, so on success it returns None. -/
def insert_product_history (cur : CursorResult) : Except Exc PyVal :=
  let result := cur.rowcount
  if result = 0 then
    Except.error (Exc.productHistoryCreateDenied "unable_to_create_product_history")
  else
    Except.ok PyVal.none

/-- A row of the products table, restricted to the columns that the
update_product_code statement touches. -/
structure ProductRow where
  id : Nat
  is_deleted : Nat
  product_code : Option String

/-- Number of rows matched by the WHERE clause
`id = product_id AND is_deleted = 0` of the UPDATE in
CreateProductDao.update_product_code; this is the affected row count that
cursor.execute returns for the statement. -/
def matched_rows (table : List ProductRow) (product_id : Nat) : Nat :=
  (table.filter (fun r => r.id == product_id && r.is_deleted == 0)).length

/-- The products table after the UPDATE of update_product_code has set
product_code on every row matched by the WHERE clause. -/
def apply_update_product_code (table : List ProductRow) (product_id : Nat)
    (code : String) : List ProductRow :=
  table.map (fun r =>
    if r.id == product_id && r.is_deleted == 0 then
      { r with product_code := some code }
    else r)

/-- CreateProductDao.update_product_code: runs the UPDATE, binds the affected
row count returned by cursor.execute to result, raises
ProductCodeUpdatedDenied with message unable_to_update_product_code when
`if not result` fires; otherwise the Python method returns None and the table
holds the updated rows, which we return to expose the state change. -/
def update_product_code (table : List ProductRow) (product_id : Nat)
    (code : String) : Except Exc (List ProductRow) :=
  let result := matched_rows table product_id
  if result = 0 then
    Except.error (Exc.productCodeUpdatedDenied "unable_to_update_product_code")
  else
    Except.ok (apply_update_product_code table product_id code)

/-- A row of the customer_information table, restricted to the columns that
sender_dao.py reads. -/
structure CustomerInfoRow where
  account_id : Nat
  name : String
  phone : String
  email : String

/-- The try-block body of SenderDao.get_sender_info_dao: SELECT name, phone,
email FROM customer_information WHERE account_id = user_id, fetchone; when no
row is found the dict with empty-string fields is returned, otherwise the
fetched row as a dict. -/
def get_sender_info_body (table : List CustomerInfoRow) (user_id : Nat) :
    Except Exc PyVal :=
  match table.find? (fun r => r.account_id == user_id) with
  | Option.none =>
      Except.ok (PyVal.dict
        [("name", PyVal.str ""), ("phone", PyVal.str ""), ("email", PyVal.str "")])
  | Option.some r =>
      Except.ok (PyVal.dict
        [("name", PyVal.str r.name), ("phone", PyVal.str r.phone),
         ("email", PyVal.str r.email)])

/-- SenderDao.get_sender_info_dao: the try body wrapped in
`except Exception: raise ServerError` with message server_error. -/
def get_sender_info_dao (table : List CustomerInfoRow) (user_id : Nat) :
    Except Exc PyVal :=
  match get_sender_info_body table user_id with
  | Except.ok v => Except.ok v
  | Except.error _ => Except.error (Exc.serverError "server_error")

/-- A row of the accounts table, restricted to the columns that sender_dao.py
reads. -/
structure AccountRow where
  id : Nat
  permission_type_id : Nat

/-- The try-block body of SenderDao.get_user_permission_check_dao: SELECT
permission_type_id FROM accounts WHERE id = user_id, fetchone; when no row is
found it raises AccountNotExist with message account_does_not_exist, otherwise
it returns the fetched row as a dict. -/
def get_user_permission_check_body (table : List AccountRow) (user_id : Nat) :
    Except Exc PyVal :=
  match table.find? (fun r => r.id == user_id) with
  | Option.none => Except.error (Exc.accountNotExist "account_does_not_exist")
  | Option.some r =>
      Except.ok (PyVal.dict [("permission_type_id", PyVal.int r.permission_type_id)])

/-- SenderDao.get_user_permission_check_dao: the try body wrapped in
`except Exception: raise ServerError` with message server_error; because
AccountNotExist is a subclass of Exception and is raised inside the try block,
the except clause catches it too. -/
def get_user_permission_check_dao (table : List AccountRow) (user_id : Nat) :
    Except Exc PyVal :=
  match get_user_permission_check_body table user_id with
  | Except.ok v => Except.ok v
  | Except.error _ => Except.error (Exc.serverError "server_error")

/-- The outcomes of the four SellerShopDao calls that SellerShopService makes
for a fixed connection and data argument; SellerShopDao itself is constructed
outside these sources, so each call outcome is left abstract. -/
structure SellerShopDao where
  get_seller_info_dao : Except Exc PyVal
  get_seller_product_search_dao : Except Exc PyVal
  get_seller_category_dao : Except Exc PyVal
  get_seller_product_list_dao : Except Exc PyVal

/-- Whether an exception is a Python KeyError, the only class caught by the
`except KeyError` clauses of seller_shop_service.py. -/
def Exc.isKeyError : Exc → Bool
  | Exc.keyError _ => true
  | _ => false

/-- SellerShopService.get_seller_info_service: returns the DAO call result;
`except KeyError` re-raises KeyError with message key_error; any other
exception propagates. -/
def get_seller_info_service (dao : SellerShopDao) : Except Exc PyVal :=
  match dao.get_seller_info_dao with
  | Except.ok v => Except.ok v
  | Except.error (Exc.keyError _) => Except.error (Exc.keyError "key_error")
  | Except.error e => Except.error e

/-- SellerShopService.get_seller_product_search_service: returns the DAO call
result; `except KeyError` re-raises KeyError with message key_error; any other
exception propagates. -/
def get_seller_product_search_service (dao : SellerShopDao) : Except Exc PyVal :=
  match dao.get_seller_product_search_dao with
  | Except.ok v => Except.ok v
  | Except.error (Exc.keyError _) => Except.error (Exc.keyError "key_error")
  | Except.error e => Except.error e

/-- SellerShopService.get_seller_category_service: returns the DAO call
result; `except KeyError` re-raises KeyError with message key_error; any other
exception propagates. -/
def get_seller_category_service (dao : SellerShopDao) : Except Exc PyVal :=
  match dao.get_seller_category_dao with
  | Except.ok v => Except.ok v
  | Except.error (Exc.keyError _) => Except.error (Exc.keyError "key_error")
  | Except.error e => Except.error e

/-- SellerShopService.get_seller_product_list_service: returns the DAO call
result; `except KeyError` re-raises KeyError with message key_error; any other
exception propagates. -/
def get_seller_product_list_service (dao : SellerShopDao) : Except Exc PyVal :=
  match dao.get_seller_product_list_dao with
  | Except.ok v => Except.ok v
  | Except.error (Exc.keyError _) => Except.error (Exc.keyError "key_error")
  | Except.error e => Except.error e

/-- The result of a Python statement sequence: either it reaches a return
with a value, or an exception is propagating. -/
inductive PyOutcome (α : Type) where
  | ret : α → PyOutcome α
  | exc : Exc → PyOutcome α
deriving DecidableEq

/-- Observable calls a view handler makes on the database layer, in order. -/
inductive Event where
  | getConnection
  | serviceCall
  | commit
  | rollback
  | closeConn
deriving DecidableEq

/-- Outcomes of the external calls a single request can make, fixed up front
so a handler execution is a pure function of them: get_connection, the service
call (whose success value has the per-view type s), connection.commit,
connection.rollback and connection.close. -/
structure ViewEnv (s : Type) where
  connResult : Except Exc Unit
  serviceResult : Except Exc s
  commitResult : Except Exc Unit
  rollbackResult : Except Exc Unit
  closeResult : Except Exc Unit

/-- Result of running a try-block body: whether the local variable connection
got bound, the events emitted, and the outcome. -/
structure BodyResult (α : Type) where
  connBound : Bool
  trace : List Event
  out : PyOutcome α

/-- The except branch `connection.rollback(); raise e` of the POST and DELETE
handlers. When connection was never bound (get_connection itself raised), the
reference to connection raises NameError instead; when rollback itself raises,
that exception propagates in place of e; otherwise e is re-raised. -/
def rollback_raise_branch (connBound : Bool) (rollbackResult : Except Exc Unit)
    (e : Exc) : List Event × PyOutcome PyVal :=
  if connBound then
    match rollbackResult with
    | Except.ok _ => ([Event.rollback], PyOutcome.exc e)
    | Except.error r => ([Event.rollback], PyOutcome.exc r)
  else
    ([], PyOutcome.exc (Exc.nameError "local variable connection referenced before assignment"))

/-- The except branch `raise e` of the GET handlers: re-raise unchanged. -/
def reraise_branch (e : Exc) : List Event × PyOutcome PyVal :=
  ([], PyOutcome.exc e)

/-- The finally block shared by every handler:
`try: if connection: connection.close() except Exception: raise DatabaseCloseFail(msg)`.
When connection was never bound, `if connection` raises NameError inside the
inner try; any exception of the inner try, including a failing close, is
caught and replaced by DatabaseCloseFail with the handler-specific message. A
connection object is always truthy, so when bound, close is attempted. -/
def close_finally (connBound : Bool) (closeResult : Except Exc Unit)
    (msg : String) : List Event × PyOutcome Unit :=
  let inner : List Event × PyOutcome Unit :=
    if connBound then
      match closeResult with
      | Except.ok _ => ([Event.closeConn], PyOutcome.ret ())
      | Except.error e => ([Event.closeConn], PyOutcome.exc e)
    else
      ([], PyOutcome.exc (Exc.nameError "local variable connection referenced before assignment"))
  match inner with
  | (t, PyOutcome.ret _) => (t, PyOutcome.ret ())
  | (t, PyOutcome.exc _) => (t, PyOutcome.exc (Exc.databaseCloseFail msg))

/-- Python try-except-finally composition: when the body returns, the handler
is skipped; when the body raises, the except handler runs with the exception
and the knowledge of whether connection was bound; the finally block then runs
unconditionally, and an exception raised inside the finally block replaces
whatever outcome was propagating. -/
def run_view (body : BodyResult PyVal)
    (hdl : Bool → Exc → List Event × PyOutcome PyVal)
    (fin : Bool → List Event × PyOutcome Unit) : List Event × PyOutcome PyVal :=
  let handled : List Event × PyOutcome PyVal :=
    match body.out with
    | PyOutcome.ret v => ([], PyOutcome.ret v)
    | PyOutcome.exc e => hdl body.connBound e
  let ended : List Event × PyOutcome Unit := fin body.connBound
  match ended.2 with
  | PyOutcome.ret _ => (body.trace ++ handled.1 ++ ended.1, handled.2)
  | PyOutcome.exc e => (body.trace ++ handled.1 ++ ended.1, PyOutcome.exc e)

/-- The try-block body of DestinationDetailView.get: get_connection, then
get_destination_detail_service returning the sequence destination_detail, then
a return of the success dict whose result field is destination_detail[0]; subscripting
an empty sequence raises IndexError. -/
def destDetailGet_body (env : ViewEnv (List PyVal)) : BodyResult PyVal :=
  match env.connResult with
  | Except.error e => BodyResult.mk false [Event.getConnection] (PyOutcome.exc e)
  | Except.ok _ =>
    match env.serviceResult with
    | Except.error e =>
        BodyResult.mk true [Event.getConnection, Event.serviceCall] (PyOutcome.exc e)
    | Except.ok [] =>
        BodyResult.mk true [Event.getConnection, Event.serviceCall]
          (PyOutcome.exc (Exc.indexError "list index out of range"))
    | Except.ok (x :: _) =>
        BodyResult.mk true [Event.getConnection, Event.serviceCall]
          (PyOutcome.ret (PyVal.dict [("message", PyVal.str "success"), ("result", x)]))

/-- DestinationDetailView.get assembled from its try body, its
`except Exception as e: raise e` branch, and its finally block whose
DatabaseCloseFail message is database_close_failed. -/
def destinationDetailView_get (env : ViewEnv (List PyVal)) :
    List Event × PyOutcome PyVal :=
  run_view (destDetailGet_body env) (fun _ e => reraise_branch e)
    (fun b => close_finally b env.closeResult "database_close_failed")

/-- The try-block body of DestinationView.post: get_connection, then
create_destination_service, then connection.commit(), then
a return of the success dict. -/
def destPost_body (env : ViewEnv PyVal) : BodyResult PyVal :=
  match env.connResult with
  | Except.error e => BodyResult.mk false [Event.getConnection] (PyOutcome.exc e)
  | Except.ok _ =>
    match env.serviceResult with
    | Except.error e =>
        BodyResult.mk true [Event.getConnection, Event.serviceCall] (PyOutcome.exc e)
    | Except.ok _ =>
      match env.commitResult with
      | Except.error e =>
          BodyResult.mk true [Event.getConnection, Event.serviceCall, Event.commit]
            (PyOutcome.exc e)
      | Except.ok _ =>
          BodyResult.mk true [Event.getConnection, Event.serviceCall, Event.commit]
            (PyOutcome.ret (PyVal.dict [("message", PyVal.str "success")]))

/-- DestinationView.post assembled from its try body, its
`except Exception as e: connection.rollback(); raise e` branch, and its
finally block whose DatabaseCloseFail message is database close fail. -/
def destinationView_post (env : ViewEnv PyVal) : List Event × PyOutcome PyVal :=
  run_view (destPost_body env)
    (fun b e => rollback_raise_branch b env.rollbackResult e)
    (fun b => close_finally b env.closeResult "database close fail")

/-- The try-block body of StoreOrderView.get: get_connection, then
get_store_order_service, then
a jsonify return of the success dict whose result field is store_order_info. -/
def storeOrderGet_body (env : ViewEnv PyVal) : BodyResult PyVal :=
  match env.connResult with
  | Except.error e => BodyResult.mk false [Event.getConnection] (PyOutcome.exc e)
  | Except.ok _ =>
    match env.serviceResult with
    | Except.error e =>
        BodyResult.mk true [Event.getConnection, Event.serviceCall] (PyOutcome.exc e)
    | Except.ok v =>
        BodyResult.mk true [Event.getConnection, Event.serviceCall]
          (PyOutcome.ret (PyVal.dict [("message", PyVal.str "success"), ("result", v)]))

/-- StoreOrderView.get assembled from its try body, its
`except Exception as e: raise e` branch, and its finally block whose
DatabaseCloseFail message is database close fail. -/
def storeOrderView_get (env : ViewEnv PyVal) : List Event × PyOutcome PyVal :=
  run_view (storeOrderGet_body env) (fun _ e => reraise_branch e)
    (fun b => close_finally b env.closeResult "database close fail")

/-- The try-block body of StoreOrderAddView.post: get_connection, then
post_order_service returning order_id, then connection.commit(), then
a return of the success dict carrying order_id under result, paired with 201. -/
def storeOrderAddPost_body (env : ViewEnv PyVal) : BodyResult PyVal :=
  match env.connResult with
  | Except.error e => BodyResult.mk false [Event.getConnection] (PyOutcome.exc e)
  | Except.ok _ =>
    match env.serviceResult with
    | Except.error e =>
        BodyResult.mk true [Event.getConnection, Event.serviceCall] (PyOutcome.exc e)
    | Except.ok order_id =>
      match env.commitResult with
      | Except.error e =>
          BodyResult.mk true [Event.getConnection, Event.serviceCall, Event.commit]
            (PyOutcome.exc e)
      | Except.ok _ =>
          BodyResult.mk true [Event.getConnection, Event.serviceCall, Event.commit]
            (PyOutcome.ret (PyVal.tuple
              [PyVal.dict [("message", PyVal.str "success"),
                           ("result", PyVal.dict [("order_id", order_id)])],
               PyVal.int 201]))

/-- StoreOrderAddView.post assembled from its try body, its
`except Exception as e: connection.rollback(); raise e` branch, and its
finally block whose DatabaseCloseFail message is database close fail. -/
def storeOrderAddView_post (env : ViewEnv PyVal) : List Event × PyOutcome PyVal :=
  run_view (storeOrderAddPost_body env)
    (fun b e => rollback_raise_branch b env.rollbackResult e)
    (fun b => close_finally b env.closeResult "database close fail")

/-- Modelled from the spec: the validate_params decorator together with the
rules of utils/rules.py (PhoneRule, PostalCodeRule, EmailRule, DecimalRule,
NumberRule) is not among the sources; per the spec, parameters are validated
against simple format rules and a request with a malformed parameter is
rejected before the handler body runs. paramsValid states whether every
declared parameter of the request satisfies its rule; when it is false the
decorator raises a validation error and the wrapped handler body is never
entered, so none of its events occur. -/
def validate_params_wrap (paramsValid : Bool)
    (handler : List Event × PyOutcome PyVal) : List Event × PyOutcome PyVal :=
  if paramsValid then handler
  else ([], PyOutcome.exc (Exc.validationError "invalid request parameter"))

/-- The full DestinationView.post endpoint: validate_params around the
handler body. -/
def destinationView_post_endpoint (paramsValid : Bool) (env : ViewEnv PyVal) :
    List Event × PyOutcome PyVal :=
  validate_params_wrap paramsValid (destinationView_post env)

/-- The full StoreOrderAddView.post endpoint: validate_params around the
handler body. -/
def storeOrderAddView_post_endpoint (paramsValid : Bool) (env : ViewEnv PyVal) :
    List Event × PyOutcome PyVal :=
  validate_params_wrap paramsValid (storeOrderAddView_post env)

/-- C1: the claim that every CreateProductDao insert method returns the new
row identifier on a successful insert is false: on a successful insert with
lastrowid 5, insert_product_image returns None, which is not the identifier. -/
theorem c1_insert_returns_identifier_counterexample :
    insert_product_image (CursorResult.mk 1 5) = Except.ok PyVal.none ∧
    (Except.ok PyVal.none : Except Exc PyVal) ≠ Except.ok (PyVal.int 5) :=
  ⟨rfl, fun h => PyVal.noConfusion (Except.ok.inj h)⟩

/-- C1 (amended): insert_product raises ProductCreateDenied with message
unable_to_create_product exactly when lastrowid is zero and otherwise returns
the new row identifier; insert_product_image raises ProductImageCreateDenied
with message unable_to_create_product_image exactly when lastrowid is zero and
otherwise returns None; insert_stock and insert_product_history raise
StockCreateDenied with message unable_to_create_stocks, respectively
ProductHistoryCreateDenied with message unable_to_create_product_history,
exactly when the statement affects zero rows and otherwise return None; no
other outcome is possible. -/
theorem c1_insert_methods (cur : CursorResult) :
    (insert_product cur =
        Except.error (Exc.productCreateDenied "unable_to_create_product") ↔
      cur.lastrowid = 0) ∧
    (cur.lastrowid ≠ 0 →
      insert_product cur = Except.ok (PyVal.int cur.lastrowid)) ∧
    (insert_product_image cur =
        Except.error (Exc.productImageCreateDenied "unable_to_create_product_image") ↔
      cur.lastrowid = 0) ∧
    (cur.lastrowid ≠ 0 → insert_product_image cur = Except.ok PyVal.none) ∧
    (insert_stock cur =
        Except.error (Exc.stockCreateDenied "unable_to_create_stocks") ↔
      cur.rowcount = 0) ∧
    (cur.rowcount ≠ 0 → insert_stock cur = Except.ok PyVal.none) ∧
    (insert_product_history cur =
        Except.error (Exc.productHistoryCreateDenied "unable_to_create_product_history") ↔
      cur.rowcount = 0) ∧
    (cur.rowcount ≠ 0 → insert_product_history cur = Except.ok PyVal.none) := by
  unfold insert_product insert_product_image insert_stock insert_product_history
  by_cases h1 : cur.lastrowid = 0 <;> by_cases h2 : cur.rowcount = 0 <;>
    simp [h1, h2]

/-- C1 witness: at rowcount 1 and lastrowid 7, insert_product returns the
identifier 7 and the other three insert methods return None. -/
theorem c1_insert_methods_witness :
    insert_product (CursorResult.mk 1 7) = Except.ok (PyVal.int 7) ∧
    insert_product_image (CursorResult.mk 1 7) = Except.ok PyVal.none ∧
    insert_stock (CursorResult.mk 1 7) = Except.ok PyVal.none ∧
    insert_product_history (CursorResult.mk 1 7) = Except.ok PyVal.none :=
  ⟨(c1_insert_methods (CursorResult.mk 1 7)).2.1 (by decide),
   (c1_insert_methods (CursorResult.mk 1 7)).2.2.2.1 (by decide),
   (c1_insert_methods (CursorResult.mk 1 7)).2.2.2.2.2.1 (by decide),
   (c1_insert_methods (CursorResult.mk 1 7)).2.2.2.2.2.2.2 (by decide)⟩

/-- C4: on an accounts table with no row for user_id 1, the body of
get_user_permission_check_dao raises AccountNotExist with message
account_does_not_exist, but the surrounding except Exception clause catches it
and the method raises ServerError with message server_error to its caller, so
the typed error named by the claim and by the docstring of the method never
reaches the caller. -/
theorem c4_account_not_exist_swallowed :
    get_user_permission_check_body [] 1 =
      Except.error (Exc.accountNotExist "account_does_not_exist") ∧
    get_user_permission_check_dao [] 1 =
      Except.error (Exc.serverError "server_error") :=
  ⟨rfl, rfl⟩

/-- C5: when no customer_information row exists for the given user id,
get_sender_info_dao returns the dict with empty-string name, phone and email
instead of raising; when a row is found, it returns the name, phone and
email. -/
theorem c5_sender_info (table : List CustomerInfoRow) (uid : Nat) :
    (table.find? (fun r => r.account_id == uid) = Option.none →
      get_sender_info_dao table uid = Except.ok (PyVal.dict
        [("name", PyVal.str ""), ("phone", PyVal.str ""),
         ("email", PyVal.str "")])) ∧
    (∀ row, table.find? (fun r => r.account_id == uid) = Option.some row →
      get_sender_info_dao table uid = Except.ok (PyVal.dict
        [("name", PyVal.str row.name), ("phone", PyVal.str row.phone),
         ("email", PyVal.str row.email)])) := by
  constructor
  · intro h
    simp [get_sender_info_dao, get_sender_info_body, h]
  · intro row h
    simp [get_sender_info_dao, get_sender_info_body, h]

/-- C5 witness: on an empty customer_information table the empty-string dict
comes back, and on a table holding a row for account 1 that row comes back. -/
theorem c5_sender_info_witness :
    get_sender_info_dao [] 1 = Except.ok (PyVal.dict
      [("name", PyVal.str ""), ("phone", PyVal.str ""),
       ("email", PyVal.str "")]) ∧
    get_sender_info_dao [CustomerInfoRow.mk 1 "kim" "01012341234" "kim@mail.com"] 1 =
      Except.ok (PyVal.dict
        [("name", PyVal.str "kim"), ("phone", PyVal.str "01012341234"),
         ("email", PyVal.str "kim@mail.com")]) :=
  ⟨(c5_sender_info [] 1).1 rfl,
   (c5_sender_info [CustomerInfoRow.mk 1 "kim" "01012341234" "kim@mail.com"] 1).2
     (CustomerInfoRow.mk 1 "kim" "01012341234" "kim@mail.com") rfl⟩

/-- C6: when no products row has the given id with is_deleted zero, the UPDATE
of update_product_code matches zero rows and the method raises
ProductCodeUpdatedDenied with message unable_to_update_product_code; when such
a row exists, the method completes without raising, with the matched rows
updated. -/
theorem c6_update_product_code (table : List ProductRow) (pid : Nat)
    (code : String) :
    ((∀ r ∈ table, ¬(r.id = pid ∧ r.is_deleted = 0)) →
      update_product_code table pid code =
        Except.error (Exc.productCodeUpdatedDenied "unable_to_update_product_code")) ∧
    ((∃ r ∈ table, r.id = pid ∧ r.is_deleted = 0) →
      update_product_code table pid code =
        Except.ok (apply_update_product_code table pid code)) := by
  constructor
  · intro h
    have hz : matched_rows table pid = 0 := by
      unfold matched_rows
      rw [List.length_eq_zero, List.filter_eq_nil_iff]
      intro r hr
      simp only [Bool.and_eq_true, beq_iff_eq]
      intro hc
      exact h r hr hc
    simp [update_product_code, hz]
  · rintro ⟨r, hr, h1, h2⟩
    have hnz : matched_rows table pid ≠ 0 := by
      unfold matched_rows
      rw [Ne, List.length_eq_zero, List.filter_eq_nil_iff]
      push_neg
      refine ⟨r, hr, ?_⟩
      simp [h1, h2]
    simp [update_product_code, hnz]

/-- C6 witness: on an empty products table the update is denied, and on a
table holding the live row 1 the update completes. -/
theorem c6_update_product_code_witness :
    update_product_code [] 1 "PC001" =
      Except.error (Exc.productCodeUpdatedDenied "unable_to_update_product_code") ∧
    update_product_code [ProductRow.mk 1 0 Option.none] 1 "PC001" =
      Except.ok (apply_update_product_code [ProductRow.mk 1 0 Option.none] 1 "PC001") :=
  ⟨(c6_update_product_code [] 1 "PC001").1 (by simp),
   (c6_update_product_code [ProductRow.mk 1 0 Option.none] 1 "PC001").2
     ⟨ProductRow.mk 1 0 Option.none, by simp, rfl, rfl⟩⟩

/-- C8: each SellerShopService method returns exactly what its DAO call
returns on success, raises KeyError with message key_error when the DAO call
raises any KeyError, and lets every other exception propagate unchanged. -/
theorem c8_seller_services (dao : SellerShopDao) :
    ((∀ v, dao.get_seller_info_dao = Except.ok v →
        get_seller_info_service dao = Except.ok v) ∧
     (∀ m, dao.get_seller_info_dao = Except.error (Exc.keyError m) →
        get_seller_info_service dao = Except.error (Exc.keyError "key_error")) ∧
     (∀ e, dao.get_seller_info_dao = Except.error e → e.isKeyError = false →
        get_seller_info_service dao = Except.error e)) ∧
    ((∀ v, dao.get_seller_product_search_dao = Except.ok v →
        get_seller_product_search_service dao = Except.ok v) ∧
     (∀ m, dao.get_seller_product_search_dao = Except.error (Exc.keyError m) →
        get_seller_product_search_service dao =
          Except.error (Exc.keyError "key_error")) ∧
     (∀ e, dao.get_seller_product_search_dao = Except.error e →
        e.isKeyError = false →
        get_seller_product_search_service dao = Except.error e)) ∧
    ((∀ v, dao.get_seller_category_dao = Except.ok v →
        get_seller_category_service dao = Except.ok v) ∧
     (∀ m, dao.get_seller_category_dao = Except.error (Exc.keyError m) →
        get_seller_category_service dao = Except.error (Exc.keyError "key_error")) ∧
     (∀ e, dao.get_seller_category_dao = Except.error e → e.isKeyError = false →
        get_seller_category_service dao = Except.error e)) ∧
    ((∀ v, dao.get_seller_product_list_dao = Except.ok v →
        get_seller_product_list_service dao = Except.ok v) ∧
     (∀ m, dao.get_seller_product_list_dao = Except.error (Exc.keyError m) →
        get_seller_product_list_service dao =
          Except.error (Exc.keyError "key_error")) ∧
     (∀ e, dao.get_seller_product_list_dao = Except.error e →
        e.isKeyError = false →
        get_seller_product_list_service dao = Except.error e)) := by
  refine ⟨⟨?_, ?_, ?_⟩, ⟨?_, ?_, ?_⟩, ⟨?_, ?_, ?_⟩, ⟨?_, ?_, ?_⟩⟩ <;>
    first
      | (intro e h he;
         cases e <;>
           simp_all [get_seller_info_service, get_seller_product_search_service,
                     get_seller_category_service, get_seller_product_list_service,
                     Exc.isKeyError])
      | (intro v h;
         simp [get_seller_info_service, get_seller_product_search_service,
               get_seller_category_service, get_seller_product_list_service, h])

/-- C8 witness: on a DAO whose info call succeeds with 1, whose search call
raises a KeyError, and whose category call raises a driver error, the info
service returns 1, the search service raises KeyError with message key_error,
and the category service re-raises the driver error unchanged. -/
theorem c8_seller_services_witness :
    get_seller_info_service (SellerShopDao.mk (Except.ok (PyVal.int 1))
        (Except.error (Exc.keyError "missing key"))
        (Except.error (Exc.other "driver failure"))
        (Except.ok PyVal.none)) = Except.ok (PyVal.int 1) ∧
    get_seller_product_search_service (SellerShopDao.mk (Except.ok (PyVal.int 1))
        (Except.error (Exc.keyError "missing key"))
        (Except.error (Exc.other "driver failure"))
        (Except.ok PyVal.none)) = Except.error (Exc.keyError "key_error") ∧
    get_seller_category_service (SellerShopDao.mk (Except.ok (PyVal.int 1))
        (Except.error (Exc.keyError "missing key"))
        (Except.error (Exc.other "driver failure"))
        (Except.ok PyVal.none)) = Except.error (Exc.other "driver failure") :=
  ⟨(c8_seller_services _).1.1 (PyVal.int 1) rfl,
   (c8_seller_services _).2.1.2.1 "missing key" rfl,
   (c8_seller_services _).2.2.1.2.2 (Exc.other "driver failure") rfl rfl⟩

/-- C2: in DestinationView.post and StoreOrderAddView.post, commit is invoked
exactly when the service call was reached and returned without raising, and
when the service call raises, rollback is invoked and an exception propagates
out of the handler, so the transaction either commits after a fully successful
service call or is rolled back. -/
theorem c2_write_handlers_atomic (e : Exc) (c : Except Exc Unit)
    (s : Except Exc PyVal) (cm rb cl : Except Exc Unit) :
    (Event.commit ∈ (destinationView_post (ViewEnv.mk c s cm rb cl)).1 ↔
      (Event.serviceCall ∈ (destinationView_post (ViewEnv.mk c s cm rb cl)).1 ∧
        ∃ v, s = Except.ok v)) ∧
    (Event.rollback ∈
        (destinationView_post
          (ViewEnv.mk (Except.ok ()) (Except.error e) cm rb cl)).1 ∧
      ∃ f, (destinationView_post
          (ViewEnv.mk (Except.ok ()) (Except.error e) cm rb cl)).2 =
        PyOutcome.exc f) ∧
    (Event.commit ∈ (storeOrderAddView_post (ViewEnv.mk c s cm rb cl)).1 ↔
      (Event.serviceCall ∈ (storeOrderAddView_post (ViewEnv.mk c s cm rb cl)).1 ∧
        ∃ v, s = Except.ok v)) ∧
    (Event.rollback ∈
        (storeOrderAddView_post
          (ViewEnv.mk (Except.ok ()) (Except.error e) cm rb cl)).1 ∧
      ∃ f, (storeOrderAddView_post
          (ViewEnv.mk (Except.ok ()) (Except.error e) cm rb cl)).2 =
        PyOutcome.exc f) := by
  cases c <;> cases s <;> cases cm <;> cases rb <;> cases cl <;>
    simp [destinationView_post, storeOrderAddView_post, destPost_body,
          storeOrderAddPost_body, run_view, rollback_raise_branch,
          close_finally]

/-- C2 witness: when the connection is acquired and the service call fails
while commit, rollback and close would succeed, DestinationView.post invokes
rollback and propagates an exception. -/
theorem c2_write_handlers_atomic_witness :
    Event.rollback ∈
      (destinationView_post (ViewEnv.mk (Except.ok ())
        (Except.error (Exc.other "insert failed")) (Except.ok ())
        (Except.ok ()) (Except.ok ()))).1 ∧
    ∃ f, (destinationView_post (ViewEnv.mk (Except.ok ())
        (Except.error (Exc.other "insert failed")) (Except.ok ())
        (Except.ok ()) (Except.ok ()))).2 = PyOutcome.exc f :=
  (c2_write_handlers_atomic (Exc.other "insert failed") (Except.ok ())
    (Except.error (Exc.other "insert failed")) (Except.ok ()) (Except.ok ())
    (Except.ok ())).2.1

/-- C3: the claim that every view handler rolls back any open transaction on
any exception is false: when get_destination_detail_service raises in
DestinationDetailView.get, the exception propagates but rollback is never
invoked; moreover, when get_connection itself raises, the finally block does
not even reach the close call. -/
theorem c3_cleanup_counterexample :
    (Event.rollback ∉
        (destinationDetailView_get (ViewEnv.mk (Except.ok ())
          (Except.error (Exc.other "select failed")) (Except.ok ())
          (Except.ok ()) (Except.ok ()))).1 ∧
      (destinationDetailView_get (ViewEnv.mk (Except.ok ())
          (Except.error (Exc.other "select failed")) (Except.ok ())
          (Except.ok ()) (Except.ok ()))).2 =
        PyOutcome.exc (Exc.other "select failed")) ∧
    Event.closeConn ∉
      (destinationDetailView_get (ViewEnv.mk
        (Except.error (Exc.other "connect failed")) (Except.ok [])
        (Except.ok ()) (Except.ok ()) (Except.ok ()))).1 :=
  ⟨⟨by decide, rfl⟩, by decide⟩

/-- C3 (amended): whenever the connection is acquired, the finally block of every handler
attempts to close it, whatever the body did; on a body exception the
POST handler additionally invokes rollback before re-raising, while the GET
handlers propagate the exception to the framework without invoking
rollback. -/
theorem c3_handler_cleanup (e : Exc) (gs : Except Exc (List PyVal))
    (ps ss : Except Exc PyVal)
    (gcm grb gcl pcm prb pcl scm srb scl : Except Exc Unit) :
    Event.closeConn ∈
      (destinationDetailView_get (ViewEnv.mk (Except.ok ()) gs gcm grb gcl)).1 ∧
    Event.closeConn ∈
      (destinationView_post (ViewEnv.mk (Except.ok ()) ps pcm prb pcl)).1 ∧
    Event.closeConn ∈
      (storeOrderView_get (ViewEnv.mk (Except.ok ()) ss scm srb scl)).1 ∧
    Event.rollback ∈
      (destinationView_post
        (ViewEnv.mk (Except.ok ()) (Except.error e) pcm prb pcl)).1 ∧
    (Event.rollback ∉
        (destinationDetailView_get
          (ViewEnv.mk (Except.ok ()) (Except.error e) gcm grb gcl)).1 ∧
      ∃ f, (destinationDetailView_get
          (ViewEnv.mk (Except.ok ()) (Except.error e) gcm grb gcl)).2 =
        PyOutcome.exc f) ∧
    (Event.rollback ∉
        (storeOrderView_get
          (ViewEnv.mk (Except.ok ()) (Except.error e) scm srb scl)).1 ∧
      ∃ f, (storeOrderView_get
          (ViewEnv.mk (Except.ok ()) (Except.error e) scm srb scl)).2 =
        PyOutcome.exc f) := by
  refine ⟨?_, ?_, ?_, ?_, ?_, ?_⟩
  · rcases gs with ge | (_ | ⟨x, rest⟩) <;> cases gcl <;>
      simp [destinationDetailView_get, destDetailGet_body, run_view,
            reraise_branch, close_finally]
  · cases ps <;> cases pcm <;> cases prb <;> cases pcl <;>
      simp [destinationView_post, destPost_body, run_view,
            rollback_raise_branch, close_finally]
  · cases ss <;> cases scl <;>
      simp [storeOrderView_get, storeOrderGet_body, run_view,
            reraise_branch, close_finally]
  · cases prb <;> cases pcl <;>
      simp [destinationView_post, destPost_body, run_view,
            rollback_raise_branch, close_finally]
  · cases gcl <;>
      simp [destinationDetailView_get, destDetailGet_body, run_view,
            reraise_branch, close_finally]
  · cases scl <;>
      simp [storeOrderView_get, storeOrderGet_body, run_view,
            reraise_branch, close_finally]

/-- C9: when get_connection raises, the local connection is never bound; in
the POST handlers the except branch reference to connection raises NameError,
and in every handler the `if connection` test in the finally block raises
NameError, which the inner except clause converts to DatabaseCloseFail, so the
request fails with the database-close error of that handler and the original
connection-acquisition exception is replaced; close is never invoked. -/
theorem c9_conn_failure_masked (e : Exc) (gs : Except Exc (List PyVal))
    (ps ss : Except Exc PyVal)
    (gcm grb gcl pcm prb pcl scm srb scl : Except Exc Unit) :
    rollback_raise_branch false prb e =
      ([], PyOutcome.exc
        (Exc.nameError "local variable connection referenced before assignment")) ∧
    close_finally false pcl "database close fail" =
      ([], PyOutcome.exc (Exc.databaseCloseFail "database close fail")) ∧
    (destinationView_post (ViewEnv.mk (Except.error e) ps pcm prb pcl)).2 =
      PyOutcome.exc (Exc.databaseCloseFail "database close fail") ∧
    Event.closeConn ∉
      (destinationView_post (ViewEnv.mk (Except.error e) ps pcm prb pcl)).1 ∧
    (storeOrderAddView_post (ViewEnv.mk (Except.error e) ss scm srb scl)).2 =
      PyOutcome.exc (Exc.databaseCloseFail "database close fail") ∧
    (destinationDetailView_get (ViewEnv.mk (Except.error e) gs gcm grb gcl)).2 =
      PyOutcome.exc (Exc.databaseCloseFail "database_close_failed") :=
  ⟨rfl, rfl, rfl,
   by simp [destinationView_post, destPost_body, run_view,
            rollback_raise_branch, close_finally],
   rfl, rfl⟩

/-- C10: DestinationDetailView.get indexes the first element of the service
result: when the service returns a nonempty sequence and close succeeds, the
handler returns the success dict whose result field is the first element; when
the service returns an empty sequence, the subscript raises IndexError, which
the handler re-raises unhandled instead of any destination-does-not-exist
error response. -/
theorem c10_dest_detail_first_element (x : PyVal) (rest : List PyVal)
    (gcm grb : Except Exc Unit) :
    (destinationDetailView_get (ViewEnv.mk (Except.ok ())
        (Except.ok (x :: rest)) gcm grb (Except.ok ()))).2 =
      PyOutcome.ret (PyVal.dict [("message", PyVal.str "success"), ("result", x)]) ∧
    (destinationDetailView_get (ViewEnv.mk (Except.ok ())
        (Except.ok []) gcm grb (Except.ok ()))).2 =
      PyOutcome.exc (Exc.indexError "list index out of range") :=
  ⟨rfl, rfl⟩

/-- C7: when a declared parameter of DestinationView.post or
StoreOrderAddView.post is malformed with respect to its validation rule, the
validate_params decorator raises the validation error before the handler body
runs: the event trace is empty, so no database connection is opened and no
service or DAO call is reached. -/
theorem c7_validation_blocks_db (env envS : ViewEnv PyVal) :
    (destinationView_post_endpoint false env).1 = [] ∧
    (destinationView_post_endpoint false env).2 =
      PyOutcome.exc (Exc.validationError "invalid request parameter") ∧
    Event.getConnection ∉ (destinationView_post_endpoint false env).1 ∧
    Event.serviceCall ∉ (destinationView_post_endpoint false env).1 ∧
    (storeOrderAddView_post_endpoint false envS).1 = [] ∧
    (storeOrderAddView_post_endpoint false envS).2 =
      PyOutcome.exc (Exc.validationError "invalid request parameter") ∧
    Event.getConnection ∉ (storeOrderAddView_post_endpoint false envS).1 ∧
    Event.serviceCall ∉ (storeOrderAddView_post_endpoint false envS).1 := by
  refine ⟨rfl, rfl, by simp [destinationView_post_endpoint, validate_params_wrap],
    by simp [destinationView_post_endpoint, validate_params_wrap], rfl, rfl,
    by simp [storeOrderAddView_post_endpoint, validate_params_wrap],
    by simp [storeOrderAddView_post_endpoint, validate_params_wrap]⟩
